import Mathlib

/-!
Verification of the llamaindex MCP client notebook (`src/ollama_client.ipynb`)
against its natural-language specification.

Part 1 shallowly embeds the code that is present in the notebook itself:
`handle_user_message`, the interactive REPL loop, and the event order recorded
in the notebook output cells.  The agent produced by `FunctionAgent` /
`agent.run` is external library code, so it is modelled as an abstract function
from a user message and a context to a run handler (event stream, final
response, updated context), which is exactly the interface the notebook code
consumes.

Part 2 models the orchestration loop, invocation channel, session context and
tool registry described by the specification; those components live in the
`llama_index` dependency, not in this repository, so they are modelled from the
specification text (each such definition is marked `Modelled from the spec:`).
-/

namespace McpClient

/-- Stream events observed by `handle_user_message` while iterating
`handler.stream_events()`: `ToolCall` (tool name plus keyword arguments),
`ToolCallResult` (tool name plus output), or any other workflow event, which
the notebook code ignores. -/
inductive StreamEvent where
  | toolCall (tool_name : String) (tool_kwargs : List (String × String))
  | toolCallResult (tool_name : String) (tool_output : String)
  | other
deriving DecidableEq

/-- Result of `agent.run(message, ctx=...)`: the stream of intermediate events,
the final response text (`str(response)`), and the context as mutated by the
run.  `Ctx` is abstract because the notebook never inspects the context. -/
structure RunHandler (Ctx : Type) where
  stream_events : List StreamEvent
  response : String
  ctx_after : Ctx

/-- The agent built by `get_agent`: a black box whose `run` method takes the
user message and the session context. -/
structure Agent (Ctx : Type) where
  run : String → Ctx → RunHandler Ctx

/-- Keyword-argument rendering used in the verbose print lines. -/
def formatKwargs (kwargs : List (String × String)) : String :=
  String.intercalate ", " (kwargs.map (fun p => p.1 ++ "=" ++ p.2))

/-- The line printed for one stream event when `verbose` is on: the notebook
prints for `ToolCall` and `ToolCallResult` events and nothing otherwise. -/
def eventPrintLine : StreamEvent → Option String
  | .toolCall n kwargs => some ("Calling tool " ++ n ++ " with kwargs " ++ formatKwargs kwargs)
  | .toolCallResult n out => some ("Tool " ++ n ++ " returned " ++ out)
  | .other => none

/-- What one call of `handle_user_message` yields: the lines printed to stdout,
the returned final answer string, and the session context after the turn. -/
structure HandleResult (Ctx : Type) where
  printed : List String
  response : String
  ctx_after : Ctx

/-- Embedding of the notebook function `handle_user_message`: it runs the
agent, iterates the event stream printing a line per tool-call event exactly
when `verbose` is set, then awaits the handler and returns `str(response)`. -/
def handle_user_message {Ctx : Type} (message_content : String) (agent : Agent Ctx)
    (agent_context : Ctx) (verbose : Bool) : HandleResult Ctx :=
  let handler := agent.run message_content agent_context
  { printed := handler.stream_events.filterMap
      (fun event => if verbose then eventPrintLine event else none)
    response := handler.response
    ctx_after := handler.ctx_after }

/-- Embedding of the notebook REPL cell: read an input; `break` on the exact
string `exit`; otherwise submit the input as a turn through
`handle_user_message` with `verbose=True` against the threaded agent context.
The unbounded `while True` over `input()` is modelled by a finite list of
pending input strings.  Returns the (input, response) pairs of the submitted
turns. -/
def repl_loop {Ctx : Type} (agent : Agent Ctx) : List String → Ctx → List (String × String)
  | [], _ => []
  | user_input :: rest, ctx =>
    if user_input == "exit" then []
    else
      let r := handle_user_message user_input agent ctx true
      (user_input, r.response) :: repl_loop agent rest r.ctx_after

/-- A tool event as recorded in the notebook output cells: `Calling tool n
with kwargs k` lines become `started`, `Tool n returned r` lines become
`completed`. -/
inductive ObservedEvent where
  | started (tool_name : String) (tool_kwargs : List (String × String))
  | completed (tool_name : String) (tool_output : String)
deriving DecidableEq

/-- The event order recorded in the notebook output cell for the turn
`delete jane age 22 and update bob age to 50`, whose decision batch is
[delete_data(name=jane), update_data(age=50, name=bob)].  The recorded lines
are, in order: Calling tool delete_data, Calling tool update_data,
Tool update_data returned true, Tool delete_data returned true. -/
def twoCallBatchEvents : List ObservedEvent :=
  [ .started "delete_data" [("name", "jane")],
    .started "update_data" [("age", "50"), ("name", "bob")],
    .completed "update_data" "true",
    .completed "delete_data" "true" ]

/-- Tests whether an observed event is the `started` event of the named tool. -/
def isStartedOf (n : String) : ObservedEvent → Bool
  | .started m _ => m == n
  | _ => false

/-- Tests whether an observed event is the `completed` event of the named tool. -/
def isCompletedOf (n : String) : ObservedEvent → Bool
  | .completed m _ => m == n
  | _ => false

/-- Modelled from the spec: a Tool Invocation Request as produced by the
Decision Engine (the concrete request type lives in the `llama_index`
dependency, not in this repository): a tool name plus an argument mapping. -/
structure ToolRequest where
  tool_name : String
  args : List (String × String)
deriving DecidableEq

/-- Modelled from the spec: the outcome of one Invocation Channel `invoke`
call (the channel implementation lives in `llama_index` / the MCP client, not
in this repository): either a Tool Result (ordered content fragments plus an
is-error flag, which also carries application-level tool failures), or a
network-level `TransportError`, a distinct condition never passed through the
conversational channel. -/
inductive InvokeOutcome where
  | result (output : List String) (is_error : Bool)
  | transportError
deriving DecidableEq

/-- Modelled from the spec: one step of the Decision Engine script, which the
loop consumes as a black box: either a final natural-language answer or a
batch of one-or-more Tool Invocation Requests. -/
inductive Decision where
  | final (answer : String)
  | callTools (requests : List ToolRequest)
deriving DecidableEq

/-- Modelled from the spec: the turn-level failures of the orchestration loop
(the loop lives in `llama_index`, not in this repository): `decisionError`
(Decision Engine contract violation, e.g. an unresolvable tool name) and
`transportError` (network failure of a single invocation, surfaced as a
turn-level failure). -/
inductive TurnError where
  | decisionError
  | transportError
deriving DecidableEq

/-- Modelled from the spec: a message held by the Session Context (the
`Context` class lives in `llama_index`): user utterances, tool results, and
assistant answers, appended in order by each turn. -/
inductive Message where
  | user (text : String)
  | toolResult (tool_name : String) (output : List String) (is_error : Bool)
  | assistant (text : String)
deriving DecidableEq

/-- Modelled from the spec: a Turn Event of the side-channel event stream:
`ToolCallStarted` and `ToolCallCompleted`, emitted strictly in the order the
corresponding actions occur. -/
inductive TurnEvent where
  | toolCallStarted (tool_name : String) (args : List (String × String))
  | toolCallCompleted (tool_name : String) (output : List String) (is_error : Bool)
deriving DecidableEq

/-- Accumulated effect of executing one decision batch: emitted events, tool
result messages to append to the Session Context, provider calls actually
performed (the real-world side effects), and an optional turn-level failure. -/
structure BatchAccum where
  events : List TurnEvent
  msgs : List Message
  recorded : List ToolRequest
  failure : Option TurnError
deriving DecidableEq

/-- Modelled from the spec: the `Invoking` state of the orchestration loop
(the loop lives in `llama_index`, not in this repository).  For each request
in production order: an unresolvable tool name is a Decision Engine contract
violation yielding `decisionError`; otherwise emit `ToolCallStarted`, invoke
the provider — recording the call, since the remote side effect happens
irrespective of response delivery — and on a Tool Result emit
`ToolCallCompleted` and stage the result message; a `TransportError` aborts
the turn. -/
def runBatch (registry : List String) (provider : ToolRequest → InvokeOutcome) :
    List ToolRequest → BatchAccum
  | [] => ⟨[], [], [], none⟩
  | req :: rest =>
    if registry.contains req.tool_name then
      match provider req with
      | .result out err =>
        let b := runBatch registry provider rest
        ⟨.toolCallStarted req.tool_name req.args :: .toolCallCompleted req.tool_name out err :: b.events,
         .toolResult req.tool_name out err :: b.msgs,
         req :: b.recorded,
         b.failure⟩
      | .transportError =>
        ⟨[.toolCallStarted req.tool_name req.args], [], [req], some .transportError⟩
    else ⟨[], [], [], some .decisionError⟩

/-- Accumulated effect of running the `Deciding`/`Invoking` alternation of one
turn: the turn result, the emitted events, the staged Session Context, and the
provider calls performed. -/
structure TurnAccum where
  result : Except TurnError String
  events : List TurnEvent
  staged : List Message
  recorded : List ToolRequest

/-- Modelled from the spec: the `Deciding`/`Invoking`/`Responding` alternation
of the orchestration loop (the loop lives in `llama_index`, not in this
repository), driven by the Decision Engine script.  A final answer is appended
to the staged context and ends the turn; a tool batch is executed by
`runBatch` and, when it succeeds, its results are appended and the loop
returns to `Deciding`; an exhausted script is an engine failure
(`decisionError`). -/
def runTurnAux (registry : List String) (provider : ToolRequest → InvokeOutcome) :
    List Decision → List Message → TurnAccum
  | [], staged => ⟨.error .decisionError, [], staged, []⟩
  | .final ans :: _, staged => ⟨.ok ans, [], staged ++ [.assistant ans], []⟩
  | .callTools reqs :: rest, staged =>
    let b := runBatch registry provider reqs
    match b.failure with
    | some e => ⟨.error e, b.events, staged, b.recorded⟩
    | none =>
      let a := runTurnAux registry provider rest (staged ++ b.msgs)
      ⟨a.result, b.events ++ a.events, a.staged, b.recorded ++ a.recorded⟩

/-- Outcome of one submitted turn: the final answer or turn-level error, the
emitted event stream, the Session Context after the turn, and the provider
calls performed during the turn. -/
structure TurnOutcome where
  result : Except TurnError String
  events : List TurnEvent
  ctx : List Message
  recordedCalls : List ToolRequest

/-- Modelled from the spec: the caller-facing `submit_turn` of the
orchestration loop (the loop lives in `llama_index`, not in this repository).
The user utterance is appended to the staged context and the decision script
is run; on success the staged context is committed; a failed turn leaves the
Session Context exactly as it was before the turn began (no partial append),
while the provider calls already performed remain recorded. -/
def submit_turn (registry : List String) (provider : ToolRequest → InvokeOutcome)
    (decisions : List Decision) (ctx : List Message) (user_text : String) : TurnOutcome :=
  let a := runTurnAux registry provider decisions (ctx ++ [.user user_text])
  match a.result with
  | .ok ans => ⟨.ok ans, a.events, a.staged, a.recorded⟩
  | .error e => ⟨.error e, a.events, ctx, a.recorded⟩

/-- Modelled from the spec: a sequence of turns against one Session Context,
each turn given by its Decision Engine script and the user utterance, the
resulting context of each turn feeding the next. -/
def runTurns (registry : List String) (provider : ToolRequest → InvokeOutcome) :
    List (List Decision × String) → List Message → List Message
  | [], ctx => ctx
  | (ds, u) :: rest, ctx =>
    runTurns registry provider rest (submit_turn registry provider ds ctx u).ctx

/-- Modelled from the spec: a Tool Descriptor of the Tool Registry (the
registry implementation is `McpToolSpec` in `llama_index`, not in this
repository): a unique name plus a free-text description. -/
structure ToolDescriptor where
  name : String
  description : String
deriving DecidableEq

/-- Modelled from the spec: the Tool Registry cache holding the last
successful discovery. -/
structure ToolRegistry where
  cached : List ToolDescriptor
deriving DecidableEq

/-- Modelled from the spec: `discover()` performed against the remote
provider; a registry snapshot is replaced wholesale on re-fetch, never mutated
in place. -/
def discover (provider_tools : List ToolDescriptor) (_r : ToolRegistry) : ToolRegistry :=
  ⟨provider_tools⟩

/-- Modelled from the spec: `list_cached()` returns the last successful
discovery without a new round trip. -/
def list_cached (r : ToolRegistry) : List ToolDescriptor :=
  r.cached

/-- The tool names of the registry's current snapshot, against which a Tool
Invocation Request's name must resolve. -/
def registryNames (r : ToolRegistry) : List String :=
  r.cached.map (fun d => d.name)

/-- Whether a tool of the given name is invocable against the registry's
current snapshot. -/
def invocable (r : ToolRegistry) (tool_name : String) : Bool :=
  (registryNames r).contains tool_name

/-- Claim C2 (counterexample): the notebook's recorded two-call batch
[delete_data(name=jane), update_data(age=50, name=bob)] does NOT emit
ToolCallStarted(delete), ToolCallCompleted(delete), ToolCallStarted(update),
ToolCallCompleted(update): the recorded order interleaves the two pairs. -/
theorem two_call_batch_claimed_order_false :
    twoCallBatchEvents ≠
      [ObservedEvent.started "delete_data" [("name", "jane")],
       ObservedEvent.completed "delete_data" "true",
       ObservedEvent.started "update_data" [("age", "50"), ("name", "bob")],
       ObservedEvent.completed "update_data" "true"] := by
  decide

/-- Claim C2 (amended): in the recorded two-call batch
[delete_data(name=jane), update_data(age=50, name=bob)], the Started events
are emitted in production order and each call's Started precedes its own
Completed, but the two pairs interleave — the order is Started(delete),
Started(update), Completed(update), Completed(delete), so a call's
started/completed pair is not adjacent. -/
theorem two_call_batch_order_interleaved :
    twoCallBatchEvents.findIdx? (isStartedOf "delete_data") = some 0
    ∧ twoCallBatchEvents.findIdx? (isStartedOf "update_data") = some 1
    ∧ twoCallBatchEvents.findIdx? (isCompletedOf "update_data") = some 2
    ∧ twoCallBatchEvents.findIdx? (isCompletedOf "delete_data") = some 3 := by
  decide

/-- Claim C7: a caller that does not consume the event stream (verbose
observation disabled) prints nothing and still receives the final answer of
the agent run once it is available. -/
theorem silent_caller_gets_final_answer {Ctx : Type} (m : String) (agent : Agent Ctx) (c : Ctx) :
    (handle_user_message m agent c false).printed = []
    ∧ (handle_user_message m agent c false).response = (agent.run m c).response := by
  constructor
  · simp [handle_user_message]
  · rfl

/-- Claim C9: the final answer string returned by `handle_user_message` (and
the resulting context) is the same whether `verbose` is `true` or `false`;
the flag influences only the printed side output. -/
theorem verbose_flag_preserves_answer {Ctx : Type} (m : String) (agent : Agent Ctx) (c : Ctx) :
    (handle_user_message m agent c true).response = (handle_user_message m agent c false).response
    ∧ (handle_user_message m agent c true).ctx_after = (handle_user_message m agent c false).ctx_after :=
  ⟨rfl, rfl⟩

/-- Claim C10: in the interactive loop, exactly the maximal prefix of inputs
preceding the first exact occurrence of the string `exit` is submitted as
turns (so every other input, the empty string included, is submitted, and
`exit` terminates the loop without submitting a turn), each against the
context threaded from the previous turn. -/
theorem repl_submits_until_exit {Ctx : Type} (agent : Agent Ctx) (inputs : List String) (c : Ctx) :
    (repl_loop agent inputs c).map Prod.fst = inputs.takeWhile (fun s => !(s == "exit")) := by
  induction inputs generalizing c with
  | nil => rfl
  | cons x rest ih =>
    cases h : x == "exit" with
    | true => simp [repl_loop, List.takeWhile_cons, h]
    | false => simp [repl_loop, List.takeWhile_cons, h, ih]

/-- Running the decision script never shortens the staged Session Context. -/
lemma runTurnAux_length_le (registry : List String) (provider : ToolRequest → InvokeOutcome) :
    ∀ (ds : List Decision) (staged : List Message),
      staged.length ≤ (runTurnAux registry provider ds staged).staged.length := by
  intro ds
  induction ds with
  | nil => intro staged; simp [runTurnAux]
  | cons d rest ih =>
    intro staged
    cases d with
    | final ans => simp [runTurnAux]
    | callTools reqs =>
      cases hb : runBatch registry provider reqs with
      | mk evs msgs recs fail =>
        cases fail with
        | some e => simp [runTurnAux, hb]
        | none =>
          have h1 : staged.length ≤ (staged ++ msgs).length := by simp
          have h2 := ih (staged ++ msgs)
          simp only [runTurnAux, hb]
          exact le_trans h1 h2

/-- A submitted turn never shortens the Session Context. -/
lemma submit_turn_length_le (registry : List String) (provider : ToolRequest → InvokeOutcome)
    (ds : List Decision) (ctx : List Message) (u : String) :
    ctx.length ≤ (submit_turn registry provider ds ctx u).ctx.length := by
  have h := runTurnAux_length_le registry provider ds (ctx ++ [Message.user u])
  simp only [List.length_append, List.length_cons, List.length_nil] at h
  simp only [submit_turn]
  split
  · dsimp only
    omega
  · simp

/-- Claim C4: across every sequence of turns against one Session Context, the
message count is monotonically non-decreasing — it never shrinks (the model
has no reset operation; a reset would replace the context wholesale). -/
theorem session_ctx_monotone (registry : List String) (provider : ToolRequest → InvokeOutcome)
    (turns : List (List Decision × String)) (ctx : List Message) :
    ctx.length ≤ (runTurns registry provider turns ctx).length := by
  induction turns generalizing ctx with
  | nil => simp [runTurns]
  | cons t rest ih =>
    cases t with
    | mk ds u =>
      have h1 := submit_turn_length_le registry provider ds ctx u
      have h2 := ih (submit_turn registry provider ds ctx u).ctx
      simp only [runTurns]
      exact le_trans h1 h2

/-- Claim C1: for a decision sequence of a single read tool call followed by
a final answer, the turn emits exactly one ToolCallStarted/ToolCallCompleted
pair for the read tool — the whole event stream is that pair — and the final
answer is returned to the caller. -/
theorem single_read_then_final (registry : List String) (provider : ToolRequest → InvokeOutcome)
    (ctx : List Message) (u : String) (args : List (String × String))
    (out : List String) (err : Bool) (ans : String)
    (hmem : "read_data" ∈ registry)
    (hprov : provider ⟨"read_data", args⟩ = InvokeOutcome.result out err) :
    (submit_turn registry provider
        [Decision.callTools [⟨"read_data", args⟩], Decision.final ans] ctx u).events
      = [TurnEvent.toolCallStarted "read_data" args,
         TurnEvent.toolCallCompleted "read_data" out err]
    ∧ (submit_turn registry provider
        [Decision.callTools [⟨"read_data", args⟩], Decision.final ans] ctx u).result
      = Except.ok ans := by
  constructor <;> simp [submit_turn, runTurnAux, runBatch, hmem, hprov]

/-- Claim C3: a TransportError raised mid-invocation fails the turn at the
turn level (the result is an error, not a silent success), leaves the Session
Context exactly as it was before the turn began (no partial append), and the
provider call already performed remains recorded as a real-world side
effect. -/
theorem transport_error_fails_turn_atomically (registry : List String)
    (provider : ToolRequest → InvokeOutcome) (ctx : List Message) (u : String)
    (tool_name : String) (args : List (String × String)) (rest : List Decision)
    (hmem : tool_name ∈ registry)
    (hprov : provider ⟨tool_name, args⟩ = InvokeOutcome.transportError) :
    (submit_turn registry provider
        (Decision.callTools [⟨tool_name, args⟩] :: rest) ctx u).result
      = Except.error TurnError.transportError
    ∧ (submit_turn registry provider
        (Decision.callTools [⟨tool_name, args⟩] :: rest) ctx u).ctx = ctx
    ∧ (⟨tool_name, args⟩ : ToolRequest) ∈ (submit_turn registry provider
        (Decision.callTools [⟨tool_name, args⟩] :: rest) ctx u).recordedCalls := by
  refine ⟨?_, ?_, ?_⟩ <;> simp [submit_turn, runTurnAux, runBatch, hmem, hprov]

/-- Claim C5: a provider-reported logical application-level failure (e.g. a
delete matching no rows, reported in the Tool Result content) is handed back
to the Decision Engine as a Tool Result appended to the Session Context and
surfaced on the event stream, never as an exception to the caller: the turn
still completes with the final answer. -/
theorem app_failure_is_tool_result (registry : List String)
    (provider : ToolRequest → InvokeOutcome) (ctx : List Message) (u : String)
    (tool_name : String) (args : List (String × String))
    (out : List String) (err : Bool) (ans : String)
    (hmem : tool_name ∈ registry)
    (hprov : provider ⟨tool_name, args⟩ = InvokeOutcome.result out err) :
    (submit_turn registry provider
        [Decision.callTools [⟨tool_name, args⟩], Decision.final ans] ctx u).result
      = Except.ok ans
    ∧ Message.toolResult tool_name out err ∈ (submit_turn registry provider
        [Decision.callTools [⟨tool_name, args⟩], Decision.final ans] ctx u).ctx
    ∧ TurnEvent.toolCallCompleted tool_name out err ∈ (submit_turn registry provider
        [Decision.callTools [⟨tool_name, args⟩], Decision.final ans] ctx u).events := by
  refine ⟨?_, ?_, ?_⟩ <;> simp [submit_turn, runTurnAux, runBatch, hmem, hprov]

/-- A batch headed by a request whose tool name does not resolve yields a
`decisionError` with no events, no staged messages and no provider calls. -/
lemma runBatch_unknown_head (registry : List String) (provider : ToolRequest → InvokeOutcome)
    (req : ToolRequest) (rest : List ToolRequest)
    (h : req.tool_name ∉ registry) :
    runBatch registry provider (req :: rest) = ⟨[], [], [], some TurnError.decisionError⟩ := by
  simp [runBatch, h]

/-- A turn whose first decision batch is headed by an unresolvable tool name
fails with `decisionError`, leaving the Session Context untouched. -/
lemma submit_turn_unknown_head (registry : List String) (provider : ToolRequest → InvokeOutcome)
    (req : ToolRequest) (reqs : List ToolRequest) (rest : List Decision)
    (ctx : List Message) (u : String)
    (h : req.tool_name ∉ registry) :
    submit_turn registry provider (Decision.callTools (req :: reqs) :: rest) ctx u
      = ⟨Except.error TurnError.decisionError, [], ctx, []⟩ := by
  simp [submit_turn, runTurnAux, runBatch_unknown_head registry provider req reqs h]

/-- If some request of a batch has an unresolvable tool name and no request
of the batch suffers a transport failure, the batch fails with
`decisionError`. -/
lemma runBatch_mem_unknown (registry : List String) (provider : ToolRequest → InvokeOutcome) :
    ∀ (reqs : List ToolRequest) (req : ToolRequest), req ∈ reqs →
      req.tool_name ∉ registry →
      (∀ r ∈ reqs, provider r ≠ InvokeOutcome.transportError) →
      (runBatch registry provider reqs).failure = some TurnError.decisionError := by
  intro reqs
  induction reqs with
  | nil => intro req hmem; cases hmem
  | cons a rest ih =>
    intro req hmem hname hprov
    by_cases ha : a.tool_name ∈ registry
    · cases hp : provider a with
      | transportError => exact absurd hp (hprov a (List.mem_cons_self a rest))
      | result out err =>
        have hreq_rest : req ∈ rest := by
          rcases List.mem_cons.mp hmem with h1 | h2
          · subst h1; exact absurd ha hname
          · exact h2
        have hrec := ih req hreq_rest hname (fun r hr => hprov r (List.mem_cons_of_mem a hr))
        simp [runBatch, ha, hp, hrec]
    · simp [runBatch, ha]

/-- Claim C6: a Tool Invocation Request whose tool name does not resolve
against the registry snapshot current at decision time makes the turn fail
with `decisionError` — it is surfaced, never silently dropped as a no-op (the
Session Context is left untouched rather than committed as if the turn had
succeeded).  The batch is assumed free of transport failures, which would
otherwise take precedence if they occur earlier in the batch. -/
theorem unresolved_tool_yields_decision_error (registry : List String)
    (provider : ToolRequest → InvokeOutcome) (reqs : List ToolRequest) (req : ToolRequest)
    (rest : List Decision) (ctx : List Message) (u : String)
    (hmem : req ∈ reqs)
    (hname : req.tool_name ∉ registry)
    (hprov : ∀ r ∈ reqs, provider r ≠ InvokeOutcome.transportError) :
    (submit_turn registry provider (Decision.callTools reqs :: rest) ctx u).result
      = Except.error TurnError.decisionError
    ∧ (submit_turn registry provider (Decision.callTools reqs :: rest) ctx u).ctx = ctx := by
  have hfail := runBatch_mem_unknown registry provider reqs req hmem hname hprov
  cases hb : runBatch registry provider reqs with
  | mk evs msgs recs fail =>
    rw [hb] at hfail
    simp only at hfail
    subst hfail
    constructor <;> simp [submit_turn, runTurnAux, hb]

/-- Claim C8: re-running `discover()` against a provider whose tool set has
changed replaces the cached registry snapshot wholesale: `list_cached`
returns exactly the new tool set, a tool absent from it is no longer
invocable even though the earlier snapshot referenced it, and a turn
requesting that tool fails with `decisionError`. -/
theorem discover_replaces_cache_wholesale (r : ToolRegistry) (newTools : List ToolDescriptor)
    (t : ToolDescriptor) (provider : ToolRequest → InvokeOutcome)
    (args : List (String × String)) (rest : List Decision) (ctx : List Message) (u : String)
    (_hold : invocable r t.name = true)
    (hgone : t.name ∉ registryNames (discover newTools r)) :
    list_cached (discover newTools r) = newTools
    ∧ invocable (discover newTools r) t.name = false
    ∧ (submit_turn (registryNames (discover newTools r)) provider
        (Decision.callTools [⟨t.name, args⟩] :: rest) ctx u).result
      = Except.error TurnError.decisionError := by
  refine ⟨rfl, ?_, ?_⟩
  · simpa [invocable] using hgone
  · rw [submit_turn_unknown_head (registryNames (discover newTools r)) provider
      ⟨t.name, args⟩ [] rest ctx u hgone]

/-- The tool names discovered in the notebook: add_data, read_data,
update_data, delete_data. -/
def sampleRegistry : List String :=
  ["add_data", "read_data", "update_data", "delete_data"]

/-- A fake provider mirroring the notebook transcript: read_data returns the
flattened row fragments, delete_data reports the logical failure `false` of a
delete matching no rows, everything else reports `true`. -/
def sampleProvider : ToolRequest → InvokeOutcome := fun req =>
  if req.tool_name == "read_data" then
    InvokeOutcome.result ["1", "jane", "22", "student"] false
  else if req.tool_name == "delete_data" then
    InvokeOutcome.result ["false"] false
  else
    InvokeOutcome.result ["true"] false

/-- A fake provider whose network is down: every invocation raises a
transport failure after the remote call was issued. -/
def downProvider : ToolRequest → InvokeOutcome := fun _ =>
  InvokeOutcome.transportError

/-- The registry snapshot of the notebook, as Tool Descriptors. -/
def oldSnapshot : ToolRegistry :=
  ⟨[⟨"add_data", "Add a person to the people table."⟩,
    ⟨"read_data", "Read data from the people table using a SQL SELECT query."⟩,
    ⟨"update_data", "Update existing data in the people table by name."⟩,
    ⟨"delete_data", "Delete a person from the people table by name."⟩]⟩

/-- A shrunken remote tool set in which delete_data no longer exists. -/
def shrunkenTools : List ToolDescriptor :=
  [⟨"add_data", "Add a person to the people table."⟩,
   ⟨"read_data", "Read data from the people table using a SQL SELECT query."⟩]

/-- Claim C1 witness: the single-read turn of the notebook transcript,
evaluated on the sample registry and provider. -/
theorem single_read_then_final_witness :
    (submit_turn sampleRegistry sampleProvider
        [Decision.callTools [⟨"read_data", [("query", "SELECT * FROM people")]⟩],
         Decision.final "three rows of jane"] [] "can you show data in demo.db").events
      = [TurnEvent.toolCallStarted "read_data" [("query", "SELECT * FROM people")],
         TurnEvent.toolCallCompleted "read_data" ["1", "jane", "22", "student"] false]
    ∧ (submit_turn sampleRegistry sampleProvider
        [Decision.callTools [⟨"read_data", [("query", "SELECT * FROM people")]⟩],
         Decision.final "three rows of jane"] [] "can you show data in demo.db").result
      = Except.ok "three rows of jane" :=
  single_read_then_final sampleRegistry sampleProvider [] "can you show data in demo.db"
    [("query", "SELECT * FROM people")] ["1", "jane", "22", "student"] false
    "three rows of jane" (by decide) rfl

/-- Claim C3 witness: a delete_data invocation against the down provider,
evaluated concretely. -/
theorem transport_error_fails_turn_atomically_witness :
    (submit_turn sampleRegistry downProvider
        (Decision.callTools [⟨"delete_data", [("name", "jane")]⟩] :: []) [] "delete jane").result
      = Except.error TurnError.transportError
    ∧ (submit_turn sampleRegistry downProvider
        (Decision.callTools [⟨"delete_data", [("name", "jane")]⟩] :: []) [] "delete jane").ctx = []
    ∧ (⟨"delete_data", [("name", "jane")]⟩ : ToolRequest) ∈ (submit_turn sampleRegistry downProvider
        (Decision.callTools [⟨"delete_data", [("name", "jane")]⟩] :: []) [] "delete jane").recordedCalls :=
  transport_error_fails_turn_atomically sampleRegistry downProvider [] "delete jane"
    "delete_data" [("name", "jane")] [] (by decide) rfl

/-- Claim C5 witness: the notebook's delete-matching-no-rows turn, whose Tool
Result content is the text `false`, evaluated concretely. -/
theorem app_failure_is_tool_result_witness :
    (submit_turn sampleRegistry sampleProvider
        [Decision.callTools [⟨"delete_data", [("name", "jane")]⟩],
         Decision.final "the record could not be deleted"] [] "").result
      = Except.ok "the record could not be deleted"
    ∧ Message.toolResult "delete_data" ["false"] false ∈ (submit_turn sampleRegistry sampleProvider
        [Decision.callTools [⟨"delete_data", [("name", "jane")]⟩],
         Decision.final "the record could not be deleted"] [] "").ctx
    ∧ TurnEvent.toolCallCompleted "delete_data" ["false"] false ∈ (submit_turn sampleRegistry sampleProvider
        [Decision.callTools [⟨"delete_data", [("name", "jane")]⟩],
         Decision.final "the record could not be deleted"] [] "").events :=
  app_failure_is_tool_result sampleRegistry sampleProvider [] ""
    "delete_data" [("name", "jane")] ["false"] false
    "the record could not be deleted" (by decide) rfl

/-- Claim C6 witness: a request naming the absent tool drop_table, evaluated
concretely. -/
theorem unresolved_tool_yields_decision_error_witness :
    (submit_turn sampleRegistry sampleProvider
        (Decision.callTools [⟨"drop_table", []⟩] :: []) [] "drop the table").result
      = Except.error TurnError.decisionError
    ∧ (submit_turn sampleRegistry sampleProvider
        (Decision.callTools [⟨"drop_table", []⟩] :: []) [] "drop the table").ctx = [] :=
  unresolved_tool_yields_decision_error sampleRegistry sampleProvider
    [⟨"drop_table", []⟩] ⟨"drop_table", []⟩ [] [] "drop the table"
    (by decide) (by decide)
    (by
      intro r hr
      rw [List.mem_singleton] at hr
      subst hr
      decide)

/-- Claim C8 witness: after re-discovery against the shrunken tool set,
delete_data is gone from the cache and a turn requesting it fails, evaluated
concretely. -/
theorem discover_replaces_cache_wholesale_witness :
    list_cached (discover shrunkenTools oldSnapshot) = shrunkenTools
    ∧ invocable (discover shrunkenTools oldSnapshot) (ToolDescriptor.name
        ⟨"delete_data", "Delete a person from the people table by name."⟩) = false
    ∧ (submit_turn (registryNames (discover shrunkenTools oldSnapshot)) sampleProvider
        (Decision.callTools [⟨ToolDescriptor.name
          ⟨"delete_data", "Delete a person from the people table by name."⟩,
          [("name", "jane")]⟩] :: []) [] "delete jane").result
      = Except.error TurnError.decisionError :=
  discover_replaces_cache_wholesale oldSnapshot shrunkenTools
    ⟨"delete_data", "Delete a person from the people table by name."⟩
    sampleProvider [("name", "jane")] [] [] "delete jane"
    (by decide) (by decide)

end McpClient
